import Mathlib

/-!
Verification of the constraint-satisfaction engine of `generate_bingo.py`
(5x5 bingo-board generator).

The engine is shallowly embedded:
* a cell's fixed color is one of seven enumerated values (source: `COLORS`,
  with 红=red, 蓝=blue, 黑=black, 绿=green, 黄=yellow, 紫=purple, 白=white);
* a grid is a fixed color layout `Layout` together with a checked-state map
  `CheckFun`; the Python grid is a 5x5 list of dicts `{x, y, color, checked}`
  with exactly one dict per position, created once in `initial_grid` and
  mutated in place, so a store `Fin 5 → Fin 5 → Bool` keyed by position is a
  faithful model of the mutable checked state;
* the global configuration entries `MAX_CHECKED` (default 15) and
  `MAX_SOLUTIONS` (default 1000) are passed as explicit parameters `mc` and
  `cap`;
* `random.choice` draws are modelled by an external oracle: a function
  supplying, per retry iteration, a color map and a coin map.
-/

set_option maxRecDepth 8000
set_option maxHeartbeats 2000000

/-- The seven cell colors (source: `COLORS = ["红","蓝","黑","绿","黄","紫","白"]`). -/
inductive Color where
  | red | blue | black | green | yellow | purple | white
deriving DecidableEq, Repr

/-- A cell position: row and column in `[0,5) × [0,5)`. -/
abbrev Coord := Fin 5 × Fin 5

/-- The fixed color of each cell. -/
abbrev Layout := Fin 5 → Fin 5 → Color

/-- The mutable checked flag of each cell, as a store keyed by position. -/
abbrev CheckFun := Fin 5 → Fin 5 → Bool

/-- Source `get_neighbors(x, y)` (lines 29-38): the loops
`for i in range(x-1, x+2): for j in range(y-1, y+2)` enumerate the nine
offset pairs row-major; the cell itself is skipped (`continue`) and a pair is
appended exactly when `0 <= i < 5 and 0 <= j < 5`. Coordinates are plain
(possibly negative) integers, so the embedding uses `Int`. -/
def get_neighbors (x y : Int) : List (Int × Int) :=
  [x - 1, x, x + 1].flatMap fun i =>
    [y - 1, y, y + 1].filterMap fun j =>
      if i = x ∧ j = y then none
      else if 0 ≤ i ∧ i < 5 ∧ 0 ≤ j ∧ j < 5 then some (i, j) else none

/-- The in-bounds neighbor list converted to `Fin 5` indices, used for the
grid accesses `grid[i][j]` performed by the rule predicates. The bound check
in the conversion never fails (proved in the index-safety theorem), so the
rules read exactly the cells `get_neighbors` returns. -/
def neighborsFin (x y : Fin 5) : List Coord :=
  (get_neighbors x.val y.val).filterMap fun p =>
    if h : 0 ≤ p.1 ∧ p.1 < 5 ∧ 0 ≤ p.2 ∧ p.2 < 5 then
      some (⟨p.1.toNat, by omega⟩, ⟨p.2.toNat, by omega⟩)
    else none

/-- Source `has_five_in_a_row(grid)` (lines 40-53): some row, some column,
the main diagonal `grid[i][i]`, or the anti-diagonal `grid[i][4-i]` is fully
checked. -/
def has_five_in_a_row (c : CheckFun) : Bool :=
  ((List.finRange 5).any fun i => (List.finRange 5).all fun j => c i j) ||
  ((List.finRange 5).any fun j => (List.finRange 5).all fun i => c i j) ||
  (((List.finRange 5).all fun i => c i i) ||
   ((List.finRange 5).all fun i => c i ⟨4 - i.val, by omega⟩))

/-- Source `check_red_rule` (lines 56-58): some neighbor is Blue and checked. -/
def check_red_rule (L : Layout) (c : CheckFun) (x y : Fin 5) : Bool :=
  (neighborsFin x y).any fun p => decide (L p.1 p.2 = Color.blue) && c p.1 p.2

/-- Source `check_blue_rule` (lines 60-63): at most two neighbors are Black
and checked. -/
def check_blue_rule (L : Layout) (c : CheckFun) (x y : Fin 5) : Bool :=
  decide (((neighborsFin x y).countP fun p =>
    decide (L p.1 p.2 = Color.black) && c p.1 p.2) ≤ 2)

/-- Source `check_green_rule` (lines 65-68): the checked count of row `x`
equals the checked count of column `y`. -/
def check_green_rule (_L : Layout) (c : CheckFun) (x y : Fin 5) : Bool :=
  decide (((List.finRange 5).countP fun j => c x j) =
          ((List.finRange 5).countP fun i => c i y))

/-- Source `check_yellow_rule` (lines 70-73): the checked count of the main
diagonal equals the checked count of the anti-diagonal. -/
def check_yellow_rule (_L : Layout) (c : CheckFun) (_x _y : Fin 5) : Bool :=
  decide (((List.finRange 5).countP fun i => c i i) =
          ((List.finRange 5).countP fun i => c i ⟨4 - i.val, by omega⟩))

/-- Source `check_purple_rule` (lines 75-78): the number of checked neighbors
is odd. -/
def check_purple_rule (_L : Layout) (c : CheckFun) (x y : Fin 5) : Bool :=
  decide ((((neighborsFin x y).countP fun p => c p.1 p.2) % 2) = 1)

/-- Source `check_all_rules(grid)` (lines 80-94): for every cell, dispatch on
its color through the dict `{红, 蓝, 绿, 黄, 紫}`; Black and White miss the
dict and fall to the default `lambda *_: True`. Returns false as soon as one
cell's predicate fails. -/
def check_all_rules (L : Layout) (c : CheckFun) : Bool :=
  (List.finRange 5).all fun i => (List.finRange 5).all fun j =>
    match L i j with
    | Color.red => check_red_rule L c i j
    | Color.blue => check_blue_rule L c i j
    | Color.green => check_green_rule L c i j
    | Color.yellow => check_yellow_rule L c i j
    | Color.purple => check_purple_rule L c i j
    | Color.black => true
    | Color.white => true

/-- All 25 positions in row-major order: `(0,0), (0,1), ..., (4,4)`. This is
the order in which both `check_total_checked` sums cells and the backtracking
search (via `next_x = x + (y+1) // 5`, `next_y = (y+1) % 5`) decides them. -/
def allPositions : List Coord :=
  (List.finRange 5).flatMap fun i => (List.finRange 5).map fun j => (i, j)

/-- The total number of checked cells of a grid. -/
def totalChecked (c : CheckFun) : Nat :=
  allPositions.countP fun q => c q.1 q.2

/-- Source `check_total_checked(grid)` (lines 96-99): the total checked count
is at most `MAX_CHECKED` (passed here as `mc`; default configuration 15). -/
def check_total_checked (mc : Nat) (c : CheckFun) : Bool :=
  decide (totalChecked c ≤ mc)

/-- The acceptance test used at the search terminal (line 124) and in the
single-grid retry loop (line 113):
`has_five_in_a_row(grid) and check_all_rules(grid) and check_total_checked(grid)`. -/
def acceptGrid (mc : Nat) (L : Layout) (c : CheckFun) : Bool :=
  has_five_in_a_row c && check_all_rules L c && check_total_checked mc c

/-- The reference structure of a stored solution. `solutions.append(
[row.copy() in current_grid])` (line 125) builds new row lists whose
elements are the very same cell dictionaries as the live grid: `list.copy()`
on a list of dicts copies references, not the dicts. Since `initial_grid`
creates exactly one dict per position and `backtrack` only ever mutates the
`"checked"` field in place, each stored solution is, for every position, a
reference to the live cell at that same position. -/
abbrev SolutionRef := Fin 5 → Fin 5 → Coord

/-- The reference map produced by `[row.copy() for row in current_grid]`:
position `(i, j)` of the stored solution aliases the live cell `(i, j)`. -/
def rowCopyRefs : SolutionRef := fun i j => (i, j)

/-- A stored solution: the checked values the aliased dicts hold at the
moment of the append (the values an independent deep copy would have frozen),
paired with the reference map actually stored. -/
abbrev Snapshot := CheckFun × SolutionRef

/-- Reading a stored solution through its references against the state the
live cell store has at read time. -/
def readSolution (store : CheckFun) (s : Snapshot) : CheckFun :=
  fun i j => store (s.2 i j).1 (s.2 i j).2

/-- In-place mutation `current_grid[x][y]["checked"] = b` of the cell store. -/
def setChecked (c : CheckFun) (p : Coord) (b : Bool) : CheckFun :=
  fun i j => if i = p.1 ∧ j = p.2 then b else c i j

/-- Source `backtrack(x, y, current_grid)` (lines 122-142), with the
row-major positions still to decide passed as an explicit list (the source
advances through them with `next_x = x + (y+1) // 5`, `next_y = (y+1) % 5`
and stops at `x == 5`). The single mutable grid threads through as `c`; the
closure variable `solutions` threads through as `sols`. At the terminal, an
accepted grid appends its shallow-copied snapshot. A Black cell is forced
checked with no branch and no pruning check; any other cell tries checked
then unchecked, each branch guarded by the pruning test
`check_all_rules(current_grid)`, and neither branch restores the value it
wrote. -/
def backtrack (L : Layout) (mc : Nat) :
    List Coord → CheckFun → List Snapshot → CheckFun × List Snapshot
  | [], c, sols =>
    if acceptGrid mc L c then (c, sols ++ [(c, rowCopyRefs)]) else (c, sols)
  | p :: rest, c, sols =>
    if L p.1 p.2 = Color.black then
      backtrack L mc rest (setChecked c p true) sols
    else
      let c1 := setChecked c p true
      let r1 := if check_all_rules L c1 then backtrack L mc rest c1 sols
                else (c1, sols)
      let c2 := setChecked r1.1 p false
      if check_all_rules L c2 then backtrack L mc rest c2 r1.2 else (c2, r1.2)

/-- Source `generate_all_solutions()` (lines 116-151) for a given color
layout `L` (the source draws `color_grid` randomly; randomness is external to
the engine). The initial grid is all-unchecked; the result is
`solutions[:MAX_SOLUTIONS]` (`cap`). The first component is the final state
of the live cell store, which the stored solutions keep referencing. -/
def generate_all_solutions (L : Layout) (mc cap : Nat) :
    CheckFun × List Snapshot :=
  ((backtrack L mc allPositions (fun _ _ => false) []).1,
   (backtrack L mc allPositions (fun _ _ => false) []).2.take cap)

/-- One iteration body of `generate_single_grid` (lines 105-112): a grid
whose colors are the iteration's color draws and whose checked flags are
`color == "黑" or random.choice([True, False])` — Black forced checked,
every other cell an independent coin flip. -/
def buildGrid (L : Layout) (coin : CheckFun) : Layout × CheckFun :=
  (L, fun i j => decide (L i j = Color.black) || coin i j)

/-- Source `generate_single_grid()` (lines 102-114): rebuild a fresh random
grid and retry until one passes the three acceptance checks. The unbounded
`while True` loop is modelled with explicit fuel (`none` = not yet found);
`draws k` supplies iteration `k`'s color map and coin map. -/
def generate_single_grid (draws : Nat → Layout × CheckFun) (mc : Nat) :
    Nat → Option (Layout × CheckFun)
  | 0 => none
  | fuel + 1 =>
    if acceptGrid mc (buildGrid (draws 0).1 (draws 0).2).1
        (buildGrid (draws 0).1 (draws 0).2).2 then
      some (buildGrid (draws 0).1 (draws 0).2)
    else generate_single_grid (fun k => draws (k + 1)) mc fuel

/-- The index of the first retry iteration whose grid passes all three
acceptance checks, within the given fuel. -/
def firstAccept (draws : Nat → Layout × CheckFun) (mc : Nat) : Nat → Option Nat
  | 0 => none
  | fuel + 1 =>
    if acceptGrid mc (buildGrid (draws 0).1 (draws 0).2).1
        (buildGrid (draws 0).1 (draws 0).2).2 then
      some 0
    else (firstAccept (fun k => draws (k + 1)) mc fuel).map (· + 1)

-- Concrete color layouts used in the theorems below.

/-- Every cell Black. -/
def allBlackLayout : Layout := fun _ _ => Color.black

/-- Cell (0,0) White, every other cell Black. -/
def whiteCornerLayout : Layout := fun i j =>
  if i = 0 ∧ j = 0 then Color.white else Color.black

/-- Cell (0,0) Blue, cell (0,1) Red, every other cell Black. Under budget 25
its Mode B search accepts two solutions and then abandons a branch in which
the Red cell has lost its checked Blue neighbor, leaving the live grid in a
rule-violating state that all stored solutions alias. -/
def aliasDemoLayout : Layout := fun i j =>
  if i = 0 ∧ j = 0 then Color.blue
  else if i = 0 ∧ j = 1 then Color.red
  else Color.black

/-- The final state of `aliasDemoLayout`'s Mode B search: every cell checked
except (0,0) and (0,1). -/
def aliasFinal : CheckFun := fun i j =>
  !(decide ((i = 0 ∧ j = 0) ∨ (i = 0 ∧ j = 1)))

/-- Every cell Red. -/
def allRedLayout : Layout := fun _ _ => Color.red

/-- Every cell White. -/
def allWhiteLayout : Layout := fun _ _ => Color.white

/-- Row 0 checked, everything else unchecked. -/
def topRowChecked : CheckFun := fun i _ => decide (i = 0)

/-- A draw oracle whose first iteration yields an all-Red layout (rejected:
no Red cell has a checked Blue neighbor) and whose second yields an all-White
layout with row 0 checked (accepted). -/
def redThenWhiteDraws : Nat → Layout × CheckFun := fun k =>
  if k = 0 then (allRedLayout, fun _ _ => true)
  else (allWhiteLayout, topRowChecked)

/-- Row 0 Black, all other cells White. -/
def blackRowLayout : Layout := fun i _ =>
  if i = 0 then Color.black else Color.white

/-- A draw oracle that always yields `blackRowLayout` with all coins false;
its very first iteration is accepted. -/
def blackRowDraws : Nat → Layout × CheckFun :=
  fun _ => (blackRowLayout, fun _ _ => false)

-- Sanity examples (concrete evaluations of the embedded predicates).
example : (get_neighbors 0 0).length = 3 := by decide
example : (get_neighbors 2 2).length = 8 := by decide
example : (get_neighbors 0 2).length = 5 := by decide
example : has_five_in_a_row (fun i _ => decide (i.val = 2)) = true := by decide
example : has_five_in_a_row (fun i j => decide (i = j)) = true := by decide
example : has_five_in_a_row (fun _ _ => false) = false := by decide
example : totalChecked (fun _ _ => true) = 25 := by rfl
example : check_total_checked 15 (fun i _ => decide (i.val ≤ 2)) = true := by decide
example : check_total_checked 15 (fun _ _ => true) = false := by decide

-- Sanity examples for the search models.
example : (generate_all_solutions allBlackLayout 15 1000).2 = [] := by decide
example :
    (generate_all_solutions allBlackLayout 25 1000).2 =
      [((fun _ _ => true : CheckFun), rowCopyRefs)] := by decide
example :
    ((generate_all_solutions aliasDemoLayout 25 1000).2.map fun s => s.1) =
      [(fun _ _ => true : CheckFun), fun i j => !(decide (i = 0 ∧ j = 1))] := by
  decide
example : (generate_all_solutions aliasDemoLayout 25 1000).1 = aliasFinal := by
  decide
example : check_all_rules aliasDemoLayout aliasFinal = false := by decide
example :
    generate_single_grid redThenWhiteDraws 15 2 =
      some (allWhiteLayout, topRowChecked) := by decide
example :
    generate_single_grid blackRowDraws 15 1 =
      some (buildGrid blackRowLayout fun _ _ => false) := by decide
example :
    (backtrack whiteCornerLayout 15 allPositions (fun _ _ => false) []).1 0 1 =
      true := by decide

/-- Every cell whose color all rule predicates may consult is Black-forced
checked in accepted grids; `blacksChecked` states the Black hard constraint
as a boolean over the whole grid. -/
def blacksChecked (L : Layout) (c : CheckFun) : Bool :=
  allPositions.all fun q => !(decide (L q.1 q.2 = Color.black)) || c q.1 q.2

lemma mem_allPositions : ∀ q : Coord, q ∈ allPositions := by decide

lemma allPositions_nodup : allPositions.Nodup := by decide

lemma setChecked_ne (c : CheckFun) (p q : Coord) (b : Bool) (h : q ≠ p) :
    setChecked c p b q.1 q.2 = c q.1 q.2 := by
  have hx : ¬(q.1 = p.1 ∧ q.2 = p.2) := fun hc => h (Prod.ext hc.1 hc.2)
  simp [setChecked, hx]

lemma setChecked_self (c : CheckFun) (p : Coord) (b : Bool) :
    setChecked c p b p.1 p.2 = b := by simp [setChecked]

/-- Frame property: `backtrack` never writes a cell whose position is not in
its remaining decision list. -/
lemma backtrack_frame (L : Layout) (mc : Nat) :
    ∀ (ps : List Coord) (c : CheckFun) (sols : List Snapshot) (q : Coord),
      q ∉ ps → (backtrack L mc ps c sols).1 q.1 q.2 = c q.1 q.2 := by
  intro ps
  induction ps with
  | nil =>
    intro c sols q _
    simp only [backtrack]
    split <;> rfl
  | cons p rest ih =>
    intro c sols q hq
    simp only [List.mem_cons, not_or] at hq
    obtain ⟨hqp, hqrest⟩ := hq
    simp only [backtrack]
    by_cases hb : L p.1 p.2 = Color.black
    · rw [if_pos hb, ih _ _ _ hqrest, setChecked_ne _ _ _ _ hqp]
    · rw [if_neg hb]
      by_cases h1 : check_all_rules L (setChecked c p true) = true
      · simp only [h1, if_true]
        by_cases h2 : check_all_rules L
            (setChecked (backtrack L mc rest (setChecked c p true) sols).1 p
              false) = true
        · simp only [h2, if_true]
          rw [ih _ _ _ hqrest, setChecked_ne _ _ _ _ hqp, ih _ _ _ hqrest,
            setChecked_ne _ _ _ _ hqp]
        · simp only [h2, Bool.false_eq_true, if_false]
          rw [setChecked_ne _ _ _ _ hqp, ih _ _ _ hqrest,
            setChecked_ne _ _ _ _ hqp]
      · simp only [h1, Bool.false_eq_true, if_false]
        by_cases h2 : check_all_rules L
            (setChecked (setChecked c p true) p false) = true
        · simp only [h2, if_true]
          rw [ih _ _ _ hqrest, setChecked_ne _ _ _ _ hqp,
            setChecked_ne _ _ _ _ hqp]
        · simp only [h2, Bool.false_eq_true, if_false]
          rw [setChecked_ne _ _ _ _ hqp, setChecked_ne _ _ _ _ hqp]

/-- The solutions accumulator (the Python closure list `solutions`) never
influences the search: the final grid state is independent of it and the
appended snapshots just follow whatever was accumulated before. -/
lemma backtrack_acc (L : Layout) (mc : Nat) :
    ∀ (ps : List Coord) (c : CheckFun) (sols : List Snapshot),
      backtrack L mc ps c sols =
        ((backtrack L mc ps c []).1, sols ++ (backtrack L mc ps c []).2) := by
  intro ps
  induction ps with
  | nil =>
    intro c sols
    simp only [backtrack]
    split
    · simp
    · simp
  | cons p rest ih =>
    intro c sols
    simp only [backtrack]
    by_cases hb : L p.1 p.2 = Color.black
    · simp only [if_pos hb]
      exact ih _ _
    · simp only [if_neg hb]
      by_cases h1 : check_all_rules L (setChecked c p true) = true
      · simp only [h1, if_true]
        rw [ih (setChecked c p true) sols]
        dsimp only
        by_cases h2 : check_all_rules L
            (setChecked (backtrack L mc rest (setChecked c p true) []).1 p
              false) = true
        · simp only [h2, if_true]
          rw [ih (setChecked (backtrack L mc rest (setChecked c p true) []).1 p
              false) (sols ++ (backtrack L mc rest (setChecked c p true) []).2),
            ih (setChecked (backtrack L mc rest (setChecked c p true) []).1 p
              false) (backtrack L mc rest (setChecked c p true) []).2]
          simp
        · simp only [h2, Bool.false_eq_true, if_false]
      · simp only [h1, Bool.false_eq_true, if_false]
        by_cases h2 : check_all_rules L
            (setChecked (setChecked c p true) p false) = true
        · simp only [h2, if_true]
          exact ih _ _
        · simp only [h2, Bool.false_eq_true, if_false]
          simp

/-- Every snapshot the search ever appends passed the three acceptance
checks at the moment it was appended. -/
lemma backtrack_all_accept (L : Layout) (mc : Nat) :
    ∀ (ps : List Coord) (c : CheckFun),
      ((backtrack L mc ps c []).2.all fun s => acceptGrid mc L s.1) = true := by
  intro ps
  induction ps with
  | nil =>
    intro c
    simp only [backtrack]
    by_cases h : acceptGrid mc L c = true
    · simp [h]
    · simp [h]
  | cons p rest ih =>
    intro c
    simp only [backtrack]
    by_cases hb : L p.1 p.2 = Color.black
    · simp only [if_pos hb]
      exact ih _
    · simp only [if_neg hb]
      by_cases h1 : check_all_rules L (setChecked c p true) = true
      · simp only [h1, if_true]
        by_cases h2 : check_all_rules L
            (setChecked (backtrack L mc rest (setChecked c p true) []).1 p
              false) = true
        · simp only [h2, if_true]
          rw [backtrack_acc L mc rest _
            (backtrack L mc rest (setChecked c p true) []).2]
          dsimp only
          rw [List.all_append, ih _, ih _]
          rfl
        · simp only [h2, Bool.false_eq_true, if_false]
          exact ih _
      · simp only [h1, Bool.false_eq_true, if_false]
        by_cases h2 : check_all_rules L
            (setChecked (setChecked c p true) p false) = true
        · simp only [h2, if_true]
          exact ih _
        · simp only [h2, Bool.false_eq_true, if_false]
          rfl

/-- Non-Black restoration: started from a state whose undecided non-Black
cells are all unchecked, the search returns every non-Black cell to its entry
value. (No such statement holds for Black cells; see the counterexample.) -/
lemma backtrack_nonblack_restore (L : Layout) (mc : Nat) :
    ∀ (ps : List Coord) (c : CheckFun) (sols : List Snapshot), ps.Nodup →
      (∀ q ∈ ps, L q.1 q.2 ≠ Color.black → c q.1 q.2 = false) →
      ∀ q : Coord, L q.1 q.2 ≠ Color.black →
        (backtrack L mc ps c sols).1 q.1 q.2 = c q.1 q.2 := by
  intro ps
  induction ps with
  | nil =>
    intro c sols _ _ q _
    simp only [backtrack]
    split <;> rfl
  | cons p rest ih =>
    intro c sols hnd hinit q hq
    rw [List.nodup_cons] at hnd
    obtain ⟨hpn, hnd⟩ := hnd
    by_cases hb : L p.1 p.2 = Color.black
    · have hqp : q ≠ p := fun h => hq (by rw [h]; exact hb)
      have hinit1 : ∀ r ∈ rest, L r.1 r.2 ≠ Color.black →
          setChecked c p true r.1 r.2 = false := by
        intro r hr hrb
        have hrp : r ≠ p := fun h => hrb (by rw [h]; exact hb)
        rw [setChecked_ne _ _ _ _ hrp]
        exact hinit r (List.mem_cons_of_mem _ hr) hrb
      simp only [backtrack, if_pos hb]
      rw [ih (setChecked c p true) sols hnd hinit1 q hq,
        setChecked_ne _ _ _ _ hqp]
    · simp only [backtrack, if_neg hb]
      have hinit1 : ∀ r ∈ rest, L r.1 r.2 ≠ Color.black →
          setChecked c p true r.1 r.2 = false := by
        intro r hr hrb
        have hrp : r ≠ p := fun h => hpn (h ▸ hr)
        rw [setChecked_ne _ _ _ _ hrp]
        exact hinit r (List.mem_cons_of_mem _ hr) hrb
      by_cases h1 : check_all_rules L (setChecked c p true) = true
      · simp only [h1, if_true]
        have hr11 : ∀ r : Coord, L r.1 r.2 ≠ Color.black →
            (backtrack L mc rest (setChecked c p true) sols).1 r.1 r.2 =
              setChecked c p true r.1 r.2 :=
          fun r hrb => ih _ _ hnd hinit1 r hrb
        have hc2 : ∀ r : Coord, L r.1 r.2 ≠ Color.black →
            setChecked (backtrack L mc rest (setChecked c p true) sols).1 p
              false r.1 r.2 = c r.1 r.2 := by
          intro r hrb
          by_cases hrp : r = p
          · subst hrp
            rw [setChecked_self]
            exact (hinit r (List.mem_cons_self _ _) hrb).symm
          · rw [setChecked_ne _ _ _ _ hrp, hr11 r hrb,
              setChecked_ne _ _ _ _ hrp]
        have hinit2 : ∀ r ∈ rest, L r.1 r.2 ≠ Color.black →
            setChecked (backtrack L mc rest (setChecked c p true) sols).1 p
              false r.1 r.2 = false := by
          intro r hr hrb
          rw [hc2 r hrb]
          exact hinit r (List.mem_cons_of_mem _ hr) hrb
        by_cases h2 : check_all_rules L
            (setChecked (backtrack L mc rest (setChecked c p true) sols).1 p
              false) = true
        · simp only [h2, if_true]
          rw [ih _ _ hnd hinit2 q hq]
          exact hc2 q hq
        · simp only [h2, Bool.false_eq_true, if_false]
          exact hc2 q hq
      · simp only [h1, Bool.false_eq_true, if_false]
        have hc2 : ∀ r : Coord, L r.1 r.2 ≠ Color.black →
            setChecked (setChecked c p true) p false r.1 r.2 = c r.1 r.2 := by
          intro r hrb
          by_cases hrp : r = p
          · subst hrp
            rw [setChecked_self]
            exact (hinit r (List.mem_cons_self _ _) hrb).symm
          · rw [setChecked_ne _ _ _ _ hrp, setChecked_ne _ _ _ _ hrp]
        have hinit2 : ∀ r ∈ rest, L r.1 r.2 ≠ Color.black →
            setChecked (setChecked c p true) p false r.1 r.2 = false := by
          intro r hr hrb
          rw [hc2 r hrb]
          exact hinit r (List.mem_cons_of_mem _ hr) hrb
        by_cases h2 : check_all_rules L
            (setChecked (setChecked c p true) p false) = true
        · simp only [h2, if_true]
          rw [ih _ _ hnd hinit2 q hq]
          exact hc2 q hq
        · simp only [h2, Bool.false_eq_true, if_false]
          exact hc2 q hq

/-- Every snapshot the search ever appends has all Black cells checked,
provided every Black cell is either still to be decided or already checked. -/
lemma backtrack_blacks (L : Layout) (mc : Nat) :
    ∀ (ps : List Coord) (c : CheckFun) (sols : List Snapshot),
      (∀ q : Coord, L q.1 q.2 = Color.black → q ∈ ps ∨ c q.1 q.2 = true) →
      (sols.all fun s => blacksChecked L s.1) = true →
      ((backtrack L mc ps c sols).2.all fun s => blacksChecked L s.1) =
        true := by
  intro ps
  induction ps with
  | nil =>
    intro c sols hb hs
    simp only [backtrack]
    by_cases h : acceptGrid mc L c = true
    · simp only [h, if_true]
      rw [List.all_append, hs]
      have hbc : blacksChecked L c = true := by
        rw [blacksChecked, List.all_eq_true]
        intro q _
        by_cases hq : L q.1 q.2 = Color.black
        · rcases hb q hq with h2 | h2
          · exact absurd h2 (List.not_mem_nil q)
          · simp [h2]
        · simp [hq]
      simp [hbc]
    · simp only [h, Bool.false_eq_true, if_false]
      exact hs
  | cons p rest ih =>
    intro c sols hb hs
    simp only [backtrack]
    by_cases hbp : L p.1 p.2 = Color.black
    · simp only [if_pos hbp]
      refine ih _ _ ?_ hs
      intro q hq
      by_cases hqp : q = p
      · subst hqp
        right
        exact setChecked_self _ _ _
      · rcases hb q hq with h2 | h2
        · rcases List.mem_cons.mp h2 with h3 | h3
          · exact absurd h3 hqp
          · exact Or.inl h3
        · right
          rw [setChecked_ne _ _ _ _ hqp]
          exact h2
    · simp only [if_neg hbp]
      have hb1 : ∀ q : Coord, L q.1 q.2 = Color.black →
          q ∈ rest ∨ setChecked c p true q.1 q.2 = true := by
        intro q hq
        have hqp : q ≠ p := fun he => hbp (by rw [← he]; exact hq)
        rcases hb q hq with h2 | h2
        · rcases List.mem_cons.mp h2 with h3 | h3
          · exact absurd h3 hqp
          · exact Or.inl h3
        · right
          rw [setChecked_ne _ _ _ _ hqp]
          exact h2
      by_cases h1 : check_all_rules L (setChecked c p true) = true
      · simp only [h1, if_true]
        have hall1 : ((backtrack L mc rest (setChecked c p true) sols).2.all
            fun s => blacksChecked L s.1) = true := ih _ _ hb1 hs
        have hb2 : ∀ q : Coord, L q.1 q.2 = Color.black →
            q ∈ rest ∨ setChecked
              (backtrack L mc rest (setChecked c p true) sols).1 p false q.1
                q.2 = true := by
          intro q hq
          by_cases hmem : q ∈ rest
          · exact Or.inl hmem
          · rcases hb1 q hq with h2 | h2
            · exact absurd h2 hmem
            · right
              have hqp : q ≠ p := fun he => hbp (by rw [← he]; exact hq)
              rw [setChecked_ne _ _ _ _ hqp,
                backtrack_frame L mc rest (setChecked c p true) sols q hmem]
              exact h2
        by_cases h2 : check_all_rules L
            (setChecked (backtrack L mc rest (setChecked c p true) sols).1 p
              false) = true
        · simp only [h2, if_true]
          exact ih _ _ hb2 hall1
        · simp only [h2, Bool.false_eq_true, if_false]
          exact hall1
      · simp only [h1, Bool.false_eq_true, if_false]
        have hb2 : ∀ q : Coord, L q.1 q.2 = Color.black →
            q ∈ rest ∨ setChecked (setChecked c p true) p false q.1 q.2 =
              true := by
          intro q hq
          have hqp : q ≠ p := fun he => hbp (by rw [← he]; exact hq)
          rcases hb1 q hq with h2 | h2
          · exact Or.inl h2
          · right
            rw [setChecked_ne _ _ _ _ hqp]
            exact h2
        by_cases h2 : check_all_rules L
            (setChecked (setChecked c p true) p false) = true
        · simp only [h2, if_true]
          exact ih _ _ hb2 hs
        · simp only [h2, Bool.false_eq_true, if_false]
          exact hs

/-- `backtrack` consults the budget only through `check_total_checked`, so
two budgets that agree on every grid state produce identical searches. -/
lemma backtrack_budget_congr (L : Layout) (mc mc2 : Nat)
    (h : ∀ c : CheckFun, check_total_checked mc c = check_total_checked mc2 c) :
    ∀ (ps : List Coord) (c : CheckFun) (sols : List Snapshot),
      backtrack L mc ps c sols = backtrack L mc2 ps c sols := by
  intro ps
  induction ps with
  | nil =>
    intro c sols
    simp only [backtrack, acceptGrid, h c]
  | cons p rest ih =>
    intro c sols
    simp only [backtrack]
    by_cases hb : L p.1 p.2 = Color.black
    · simp only [if_pos hb]
      exact ih _ _
    · simp only [if_neg hb]
      by_cases h1 : check_all_rules L (setChecked c p true) = true
      · simp only [h1, if_true]
        rw [ih (setChecked c p true) sols]
        by_cases h2 : check_all_rules L
            (setChecked (backtrack L mc2 rest (setChecked c p true) sols).1 p
              false) = true
        · simp only [h2, if_true]
          exact ih _ _
        · simp only [h2, Bool.false_eq_true, if_false]
      · simp only [h1, Bool.false_eq_true, if_false]
        by_cases h2 : check_all_rules L
            (setChecked (setChecked c p true) p false) = true
        · simp only [h2, if_true]
          exact ih _ _
        · simp only [h2, Bool.false_eq_true, if_false]

lemma totalChecked_le (c : CheckFun) : totalChecked c ≤ 25 :=
  le_trans (List.countP_le_length _) (le_of_eq (by decide))

lemma check_total_checked_of_ge (mc : Nat) (h : 25 ≤ mc) (c : CheckFun) :
    check_total_checked mc c = true := by
  simp only [check_total_checked, decide_eq_true_eq]
  exact le_trans (totalChecked_le c) h

lemma all_take_of_all {α : Type} (f : α → Bool) (l : List α) (n : Nat)
    (h : l.all f = true) : (l.take n).all f = true := by
  rw [List.all_eq_true] at h ⊢
  exact fun x hx => h x (List.take_subset n l hx)

lemma blacksChecked_buildGrid (L : Layout) (coin : CheckFun) :
    blacksChecked (buildGrid L coin).1 (buildGrid L coin).2 = true := by
  rw [blacksChecked, List.all_eq_true]
  intro q _
  by_cases h : L q.1 q.2 = Color.black
  · simp [buildGrid, h]
  · simp [buildGrid, h]

/-- Every grid the single-grid retry loop can return has all its Black cells
checked (they are forced checked when the grid is built). -/
lemma gen_single_blacks (mc : Nat) :
    ∀ (fuel : Nat) (draws : Nat → Layout × CheckFun),
      ((generate_single_grid draws mc fuel).all fun g =>
        blacksChecked g.1 g.2) = true := by
  intro fuel
  induction fuel with
  | zero => intro draws; rfl
  | succ n ih =>
    intro draws
    simp only [generate_single_grid]
    by_cases h : acceptGrid mc (buildGrid (draws 0).1 (draws 0).2).1
        (buildGrid (draws 0).1 (draws 0).2).2 = true
    · simp only [h, if_true]
      exact blacksChecked_buildGrid _ _
    · simp only [h, Bool.false_eq_true, if_false]
      exact ih _

/-- The retry loop returns exactly the grid built from the draws of the
first accepting iteration (and `none` if no iteration within the fuel
accepts). -/
lemma gen_single_firstAccept (mc : Nat) :
    ∀ (fuel : Nat) (draws : Nat → Layout × CheckFun),
      generate_single_grid draws mc fuel =
        (firstAccept draws mc fuel).map fun k =>
          buildGrid (draws k).1 (draws k).2 := by
  intro fuel
  induction fuel with
  | zero => intro draws; rfl
  | succ n ih =>
    intro draws
    simp only [generate_single_grid, firstAccept]
    by_cases h : acceptGrid mc (buildGrid (draws 0).1 (draws 0).2).1
        (buildGrid (draws 0).1 (draws 0).2).2 = true
    · simp [h]
    · simp only [h, Bool.false_eq_true, if_false]
      rw [ih, Option.map_map]
      rfl

/-- C1 (amended): `check_all_rules` returns true iff every Red, Blue, Green,
Yellow and Purple cell's color-specific predicate holds for the current
checked assignment; Black and White cells impose no constraint in
`check_all_rules` (the dispatch dict has no entry for them, so they fall to
the always-true default). In particular a grid containing an unchecked Black
cell can still pass `check_all_rules`. -/
theorem C1_check_all_rules_amended : ∀ (L : Layout) (c : CheckFun),
    check_all_rules L c = true ↔
      ∀ i j : Fin 5,
        (L i j = Color.red → check_red_rule L c i j = true) ∧
        (L i j = Color.blue → check_blue_rule L c i j = true) ∧
        (L i j = Color.green → check_green_rule L c i j = true) ∧
        (L i j = Color.yellow → check_yellow_rule L c i j = true) ∧
        (L i j = Color.purple → check_purple_rule L c i j = true) := by
  intro L c
  rw [check_all_rules]
  simp only [List.all_eq_true, List.mem_finRange, true_implies]
  refine forall_congr' fun i => forall_congr' fun j => ?_
  cases h : L i j <;> simp [h]

/-- C1 counterexample: on the all-Black layout with every cell unchecked,
every Black cell's checked flag is false, yet `check_all_rules` returns
true — refuting the claim that a grid with an unchecked Black cell makes
`check_all_rules` return false. -/
theorem C1_counterexample :
    check_all_rules allBlackLayout (fun _ _ => false) = true ∧
    allBlackLayout 0 0 = Color.black ∧
    (fun _ _ => false : CheckFun) 0 0 = false := by decide

/-- C1 witness: the amended equivalence applied to the all-Black unchecked
grid. -/
theorem C1_witness :
    check_all_rules allBlackLayout (fun _ _ => false) = true :=
  (C1_check_all_rules_amended allBlackLayout (fun _ _ => false)).mpr
    (by decide)

/-- C2: on the layout with (0,0) Blue, (0,1) Red and all other cells Black,
under budget 25, Mode B appends two snapshots that each passed all three
acceptance checks at their acceptance point, but the stored row lists alias
the live cell dicts (`row.copy()` is shallow), so reading any returned
solution after the search ends yields the final search state `aliasFinal` —
and `aliasFinal` fails `check_all_rules` (the Red cell has no checked Blue
neighbor left). Re-evaluating the three predicates on the returned grids
therefore does not yield true, refuting the claim. -/
theorem C2_shallow_copy_aliasing :
    ((generate_all_solutions aliasDemoLayout 25 1000).2.map fun s => s.1) =
      [(fun _ _ => true : CheckFun),
        fun i j => !(decide (i = 0 ∧ j = 1))] ∧
    ((generate_all_solutions aliasDemoLayout 25 1000).2.all fun s =>
      acceptGrid 25 aliasDemoLayout s.1) = true ∧
    ((generate_all_solutions aliasDemoLayout 25 1000).2.map fun s =>
      readSolution (generate_all_solutions aliasDemoLayout 25 1000).1 s) =
      [aliasFinal, aliasFinal] ∧
    check_all_rules aliasDemoLayout aliasFinal = false := by decide

/-- C3 (amended): `backtrack` never writes a cell outside its remaining
decision list, and, started from a state whose undecided non-Black cells are
all unchecked (as holds in every reachable call), it restores every
non-Black cell to its entry value before returning. Black cells are not
restored: once forced checked they stay checked after the branch is
abandoned, so a later pruning check can see a not-yet-decided Black cell as
checked. -/
theorem C3_restore_amended :
    ∀ (L : Layout) (mc : Nat) (ps : List Coord) (c : CheckFun)
      (sols : List Snapshot),
      (∀ q : Coord, q ∉ ps →
        (backtrack L mc ps c sols).1 q.1 q.2 = c q.1 q.2) ∧
      (ps.Nodup →
        (∀ q ∈ ps, L q.1 q.2 ≠ Color.black → c q.1 q.2 = false) →
        ∀ q : Coord, L q.1 q.2 ≠ Color.black →
          (backtrack L mc ps c sols).1 q.1 q.2 = c q.1 q.2) :=
  fun L mc ps c sols =>
    ⟨fun q hq => backtrack_frame L mc ps c sols q hq,
     fun hnd hinit q hq =>
       backtrack_nonblack_restore L mc ps c sols hnd hinit q hq⟩

/-- C3 counterexample: on the layout with (0,0) White and all other cells
Black, the top-level call enters with every cell unchecked but returns with
the Black cell (0,1) still checked — `backtrack` does not restore Black
cells to their entry value before returning to its caller. -/
theorem C3_counterexample :
    (backtrack whiteCornerLayout 15 allPositions (fun _ _ => false) []).1 0 1 =
      true ∧
    (fun _ _ => false : CheckFun) 0 1 = false := by decide

/-- C3 witness: the restoration theorem applied to the concrete layout with
(0,0) White and all other cells Black — the non-Black cell (0,0) is restored
to its entry value false. -/
theorem C3_witness :
    (backtrack whiteCornerLayout 15 allPositions (fun _ _ => false) []).1 0 0 =
      (fun _ _ => false : CheckFun) 0 0 :=
  (C3_restore_amended whiteCornerLayout 15 allPositions (fun _ _ => false)
    []).2 (by decide) (by decide) (0, 0) (by decide)

/-- C4 (amended): each retry iteration of `generate_single_grid` draws a
fresh color layout together with a fresh checked assignment (the source
re-runs `random.choice(COLORS)` per cell in every iteration); the function
returns the grid built entirely from the draws of the first accepting
iteration. -/
theorem C4_retry_amended : ∀ (draws : Nat → Layout × CheckFun) (mc fuel : Nat),
    generate_single_grid draws mc fuel =
      (firstAccept draws mc fuel).map fun k =>
        buildGrid (draws k).1 (draws k).2 :=
  fun draws mc fuel => gen_single_firstAccept mc fuel draws

/-- C4 counterexample: with an oracle whose first iteration draws an all-Red
layout (rejected) and whose second draws an all-White layout (accepted), the
returned grid carries the all-White layout, not the first iteration's
all-Red layout — colors are re-drawn between retries. -/
theorem C4_counterexample :
    generate_single_grid redThenWhiteDraws 15 2 =
      some (allWhiteLayout, topRowChecked) ∧
    (redThenWhiteDraws 0).1 0 0 = Color.red ∧
    decide (((generate_single_grid redThenWhiteDraws 15 2).map fun g =>
      g.1 0 0) = some ((redThenWhiteDraws 0).1 0 0)) = false := by decide

/-- C5: the solutions accumulator never influences the search (so the tree
is explored in full regardless of how many solutions were collected), the
returned list is exactly the full discovery-ordered list truncated to the
first `cap` entries, its length is at most `cap`, and every collected
snapshot passed the three acceptance checks when it was appended. -/
theorem C5_order_truncation :
    (∀ (L : Layout) (mc : Nat) (ps : List Coord) (c : CheckFun)
        (sols : List Snapshot),
      backtrack L mc ps c sols =
        ((backtrack L mc ps c []).1, sols ++ (backtrack L mc ps c []).2)) ∧
    (∀ (L : Layout) (mc cap : Nat),
      (generate_all_solutions L mc cap).2 =
        (backtrack L mc allPositions (fun _ _ => false) []).2.take cap) ∧
    (∀ (L : Layout) (mc cap : Nat),
      (generate_all_solutions L mc cap).2.length ≤ cap) ∧
    (∀ (L : Layout) (mc : Nat) (ps : List Coord) (c : CheckFun),
      ((backtrack L mc ps c []).2.all fun s => acceptGrid mc L s.1) =
        true) := by
  refine ⟨fun L mc ps c sols => backtrack_acc L mc ps c sols,
    fun L mc cap => rfl, fun L mc cap => ?_,
    fun L mc ps c => backtrack_all_accept L mc ps c⟩
  simp only [generate_all_solutions, List.length_take]
  exact min_le_left _ _

/-- C6: on the all-Black layout the search has a single path that forces
every cell checked; under the default budget 15 the returned solution list
is empty, and under any budget of at least 25 it is exactly the one
fully-checked grid. -/
theorem C6_all_black_layout :
    (generate_all_solutions allBlackLayout 15 1000).2 = [] ∧
    ∀ mc : Nat, 25 ≤ mc →
      (generate_all_solutions allBlackLayout mc 1000).1 =
        (fun _ _ => true : CheckFun) ∧
      (generate_all_solutions allBlackLayout mc 1000).2 =
        [((fun _ _ => true : CheckFun), rowCopyRefs)] := by
  refine ⟨by decide, fun mc hmc => ?_⟩
  have hcongr : ∀ c : CheckFun,
      check_total_checked mc c = check_total_checked 25 c := fun c => by
    rw [check_total_checked_of_ge mc hmc c,
      check_total_checked_of_ge 25 (le_refl 25) c]
  have hbt := backtrack_budget_congr allBlackLayout mc 25 hcongr allPositions
    (fun _ _ => false) []
  constructor
  · simp only [generate_all_solutions, hbt]
    decide
  · simp only [generate_all_solutions, hbt]
    decide

/-- C6 witness: the all-Black layout at the concrete budget 25 returns
exactly the fully-checked grid. -/
theorem C6_witness :
    (generate_all_solutions allBlackLayout 25 1000).2 =
      [((fun _ _ => true : CheckFun), rowCopyRefs)] :=
  (C6_all_black_layout.2 25 (by decide)).2

/-- C7: for in-bounds coordinates, `get_neighbors` returns exactly the
in-bounds positions differing by at most one in each coordinate and distinct
from the cell itself; every returned position is in bounds; and its length
is 3 at a corner, 5 at a non-corner edge cell, and 8 in the interior. -/
theorem C7_get_neighbors : ∀ x y : Fin 5,
    (∀ p : Coord,
      ((p.1.val : Int), (p.2.val : Int)) ∈ get_neighbors x.val y.val ↔
        (p ≠ (x, y) ∧ |(p.1.val : Int) - (x.val : Int)| ≤ 1 ∧
          |(p.2.val : Int) - (y.val : Int)| ≤ 1)) ∧
    ((get_neighbors x.val y.val).all fun q =>
      decide (0 ≤ q.1 ∧ q.1 < 5 ∧ 0 ≤ q.2 ∧ q.2 < 5)) = true ∧
    (get_neighbors x.val y.val).length =
      (if (x.val = 0 ∨ x.val = 4) ∧ (y.val = 0 ∨ y.val = 4) then 3
       else if x.val = 0 ∨ x.val = 4 ∨ y.val = 0 ∨ y.val = 4 then 5
       else 8) := by decide

/-- C7 witness: the characterization applied at the corner (0,0) and
candidate position (0,1). -/
theorem C7_witness :
    (((0 : Fin 5).val : Int), ((1 : Fin 5).val : Int)) ∈
      get_neighbors (0 : Fin 5).val (0 : Fin 5).val :=
  ((C7_get_neighbors 0 0).1 (0, 1)).mpr (by decide)

/-- C8: in every grid accepted by either mode — any grid the single-grid
retry loop returns and every snapshot `generate_all_solutions` returns —
every Black-colored cell is checked. -/
theorem C8_black_always_checked :
    (∀ (draws : Nat → Layout × CheckFun) (mc fuel : Nat),
      ((generate_single_grid draws mc fuel).all fun g =>
        blacksChecked g.1 g.2) = true) ∧
    (∀ (L : Layout) (mc cap : Nat),
      ((generate_all_solutions L mc cap).2.all fun s =>
        blacksChecked L s.1) = true) := by
  constructor
  · exact fun draws mc fuel => gen_single_blacks mc fuel draws
  · intro L mc cap
    have hfull : ((backtrack L mc allPositions (fun _ _ => false) []).2.all
        fun s => blacksChecked L s.1) = true := by
      refine backtrack_blacks L mc allPositions (fun _ _ => false) [] ?_ rfl
      intro q _
      exact Or.inl (mem_allPositions q)
    simp only [generate_all_solutions]
    exact all_take_of_all _ _ _ hfull

/-- C9: the neighborhood relation is symmetric and the returned list is
duplicate-free. -/
theorem C9_neighbors_symmetric_nodup : ∀ x y i j : Fin 5,
    (((i.val : Int), (j.val : Int)) ∈ get_neighbors x.val y.val ↔
      ((x.val : Int), (y.val : Int)) ∈ get_neighbors i.val j.val) ∧
    (get_neighbors x.val y.val).Nodup := by decide

/-- C9 witness: symmetry applied at (1,1) and (0,0). -/
theorem C9_witness :
    (((0 : Fin 5).val : Int), ((0 : Fin 5).val : Int)) ∈
      get_neighbors (1 : Fin 5).val (1 : Fin 5).val :=
  ((C9_neighbors_symmetric_nodup 1 1 0 0).1).mpr (by decide)

/-- C10: every position `get_neighbors` ever returns — for arbitrary integer
inputs — lies inside `[0,5) × [0,5)`, and converting the neighbor list to
`Fin 5` indices (the form in which the rule predicates access the grid)
drops nothing; together with the `Fin 5`-typed row and column indices used
everywhere else, every grid access of the checkers is in bounds. -/
theorem C10_index_safety :
    (∀ (x y : Int), ∀ p ∈ get_neighbors x y,
      0 ≤ p.1 ∧ p.1 < 5 ∧ 0 ≤ p.2 ∧ p.2 < 5) ∧
    (∀ x y : Fin 5,
      (neighborsFin x y).map (fun q => ((q.1.val : Int), (q.2.val : Int))) =
        get_neighbors x.val y.val) := by
  constructor
  · intro x y p hp
    rw [get_neighbors] at hp
    simp only [List.mem_flatMap, List.mem_filterMap] at hp
    obtain ⟨i, _, j, _, hj⟩ := hp
    by_cases hself : i = x ∧ j = y
    · rw [if_pos hself] at hj
      exact absurd hj (by simp)
    · rw [if_neg hself] at hj
      by_cases hbnd : 0 ≤ i ∧ i < 5 ∧ 0 ≤ j ∧ j < 5
      · rw [if_pos hbnd, Option.some.injEq] at hj
        subst hj
        exact ⟨hbnd.1, hbnd.2.1, hbnd.2.2.1, hbnd.2.2.2⟩
      · rw [if_neg hbnd] at hj
        exact absurd hj (by simp)
  · decide

/-- C10 witness: in-bounds property of the neighbor (0,1) of the corner
(0,0). -/
theorem C10_witness :
    0 ≤ ((0, 1) : Int × Int).1 ∧ ((0, 1) : Int × Int).1 < 5 ∧
      0 ≤ ((0, 1) : Int × Int).2 ∧ ((0, 1) : Int × Int).2 < 5 :=
  C10_index_safety.1 0 0 (0, 1) (by decide)
